import Mathlib

/-!
Shallow embedding of `src/client/src/pages/Home.tsx` from the
inscription-invitation-ISTC repository: a single-page registration form keeping
an in-memory list of registrations (`Inscription`), with validation, a capacity
cap, owner-only deletion, a client-side filter, and local-storage loading.

All React state is modelled explicitly: the registration list, the form state
and the filter state are plain values, and each handler is a pure function from
the relevant state (plus the nondeterministic inputs the browser supplies:
current user id, generated id, date and time strings) to the new state.
-/

/-- The `Inscription` interface of `Home.tsx` (lines 9-18). -/
structure Inscription where
  id : String
  userId : String
  nom : String
  filiere : String
  niveau : String
  telephone : String
  dateInscription : String
  heureInscription : String
deriving DecidableEq, Repr

/-- The form state `formData` of `Home.tsx` (lines 40-45). -/
structure FormData where
  nom : String
  filiere : String
  niveau : String
  telephone : String
deriving DecidableEq, Repr

/-- `MAX_INSCRIPTIONS` (line 20). -/
def MAX_INSCRIPTIONS : Nat := 50

/-- The combined list + form state handled by `handleSubmit`. -/
structure HomeState where
  inscriptions : List Inscription
  formData : FormData
deriving DecidableEq, Repr

/-- The filter state: `searchNom`, `filterFiliere`, `filterNiveau`
(lines 50-52). -/
structure FilterState where
  searchNom : String
  filterFiliere : String
  filterNiveau : String
deriving DecidableEq, Repr

/-- JavaScript regex class `\s` (whitespace), as used by
`formData.telephone.replace(/\s/g, "")` on line 112 and by `String.trim` on
line 98: tab, LF, VT, FF, CR, space, NBSP, and the Unicode space separators. -/
def isJsSpace (c : Char) : Bool :=
  c.toNat == 0x9 || c.toNat == 0xa || c.toNat == 0xb || c.toNat == 0xc ||
  c.toNat == 0xd || c.toNat == 0x20 || c.toNat == 0xa0 || c.toNat == 0x1680 ||
  (0x2000 ≤ c.toNat && c.toNat ≤ 0x200a) || c.toNat == 0x2028 ||
  c.toNat == 0x2029 || c.toNat == 0x202f || c.toNat == 0x205f ||
  c.toNat == 0x3000 || c.toNat == 0xfeff

/-- `formData.telephone.replace(/\s/g, "")` (line 112): remove all
whitespace. -/
def cleanPhone (s : String) : String :=
  String.mk (s.data.filter (fun c => !isJsSpace c))

/-- JavaScript `String.prototype.trim` (line 98): strip whitespace from both
ends. -/
def jsTrim (s : String) : String :=
  String.mk (((s.data.dropWhile isJsSpace).reverse.dropWhile isJsSpace).reverse)

/-- `'0' ≤ c ≤ '9'`, the `[0-9]` class of the phone regex. -/
def isAsciiDigit (c : Char) : Bool :=
  0x30 ≤ c.toNat && c.toNat ≤ 0x39

/-- Match of the suffix `[6][0-9]{8,9}$` of the phone regex: a literal `6`
followed by 8 or 9 ASCII digits, consuming the whole remaining input. -/
def phoneTailMatch : List Char → Bool
  | '6' :: rest =>
      rest.all isAsciiDigit && (rest.length == 8 || rest.length == 9)
  | _ => false

/-- Strip a literal leading character sequence, or fail. -/
def stripLead : List Char → List Char → Option (List Char)
  | [], cs => some cs
  | _ :: _, [] => none
  | p :: ps, c :: cs => if c = p then stripLead ps cs else none

/-- Full match of `/^(\+237|237)?[6][0-9]{8,9}$/` (line 111): the optional
group is the alternation of the literal `+237`, the literal `237`, or nothing,
followed by `[6][0-9]{8,9}` to the end of input. -/
def phoneRegexTest (s : String) : Bool :=
  let cs := s.data
  (match stripLead ['+', '2', '3', '7'] cs with
   | some rest => phoneTailMatch rest
   | none => false) ||
  (match stripLead ['2', '3', '7'] cs with
   | some rest => phoneTailMatch rest
   | none => false) ||
  phoneTailMatch cs

/-- The validation errors raised by `validateForm` (toast messages, lines
98-121) and by the capacity check of `handleSubmit` (line 131). -/
inductive SubmitError where
  | emptyNom
  | emptyFiliere
  | emptyNiveau
  | badPhone
  | duplicatePhone
  | capacityFull
deriving DecidableEq, Repr

/-- `validateForm` (lines 97-123): the checks in source order, returning the
first error raised, or `none` when the form is valid. The JS falsiness tests
`!formData.nom.trim()`, `!formData.filiere`, `!formData.niveau` are emptiness
tests on strings. The duplicate check (line 118) compares the RAW
`formData.telephone` against each stored `telephone`, not the cleaned one. -/
def validateForm (form : FormData) (inscriptions : List Inscription) :
    Option SubmitError :=
  if jsTrim form.nom = "" then some .emptyNom
  else if form.filiere = "" then some .emptyFiliere
  else if form.niveau = "" then some .emptyNiveau
  else if !phoneRegexTest (cleanPhone form.telephone) then some .badPhone
  else if inscriptions.any (fun insc => insc.telephone == form.telephone) then
    some .duplicatePhone
  else none

/-- The empty form `{ nom: "", filiere: "", niveau: "", telephone: "" }` that
`handleSubmit` resets to (line 162). -/
def emptyForm : FormData := ⟨"", "", "", ""⟩

/-- The `newInscription` record built by `handleSubmit` (lines 150-159):
every field copied verbatim from the form, plus the generated id, the current
user id and the formatted date/time strings. -/
def newInscription (form : FormData) (currentUserId newId date time : String) :
    Inscription :=
  { id := newId
    userId := currentUserId
    nom := form.nom
    filiere := form.filiere
    niveau := form.niveau
    telephone := form.telephone
    dateInscription := date
    heureInscription := time }

/-- `handleSubmit` (lines 125-166): abort on validation failure (line 128),
abort when the list is at capacity (lines 130-133), otherwise cons the new
inscription onto the list (line 161) and reset the form (line 162). The
generated id, date and time are nondeterministic browser inputs, passed as
parameters. -/
def handleSubmit (st : HomeState) (currentUserId newId date time : String) :
    HomeState :=
  if (validateForm st.formData st.inscriptions).isSome then st
  else if st.inscriptions.length ≥ MAX_INSCRIPTIONS then st
  else
    { inscriptions :=
        newInscription st.formData currentUserId newId date time ::
          st.inscriptions
      formData := emptyForm }

/-- `handleDelete` (lines 168-181): find the inscription by id; if absent,
error and no change; if its `userId` differs from the current user, error and
no change; otherwise keep exactly the entries whose id differs. -/
def handleDelete (inscriptions : List Inscription)
    (currentUserId id : String) : List Inscription :=
  match inscriptions.find? (fun insc => insc.id == id) with
  | none => inscriptions
  | some inscriptionToDelete =>
      if inscriptionToDelete.userId != currentUserId then inscriptions
      else inscriptions.filter (fun insc => insc.id != id)

/-- JavaScript `String.prototype.toLowerCase` as used on line 189 (adequate
for the ASCII range, which `Char.toLower` maps like JS does). -/
def jsToLowerCase (s : String) : String := String.mk (s.data.map Char.toLower)

/-- `needle` is a leading segment of the second list. -/
def listStartsWith : List Char → List Char → Bool
  | [], _ => true
  | _ :: _, [] => false
  | b :: bs, a :: rest => b == a && listStartsWith bs rest

/-- `needle` occurs as a contiguous segment of `hay`. -/
def listIncludes (needle : List Char) : List Char → Bool
  | [] => needle.isEmpty
  | c :: rest => listStartsWith needle (c :: rest) || listIncludes needle rest

/-- JavaScript `a.includes(b)`: `b` occurs as a contiguous substring of
`a`. -/
def strIncludes (a b : String) : Bool := listIncludes b.data a.data

/-- The filter predicate of `filteredInscriptions` (lines 185-198):
`matchNom` is an empty search, a case-insensitive substring match on the name,
or a CASE-SENSITIVE (verbatim) substring match on the phone (line 190 uses
`insc.telephone.includes(searchNom)` with no lowercasing); `matchFiliere` and
`matchNiveau` are empty-or-exact matches. All three are conjoined. -/
def matchesFilter (fs : FilterState) (insc : Inscription) : Bool :=
  let matchNom :=
    fs.searchNom == "" ||
    strIncludes (jsToLowerCase insc.nom) (jsToLowerCase fs.searchNom) ||
    strIncludes insc.telephone fs.searchNom
  let matchFiliere := fs.filterFiliere == "" || insc.filiere == fs.filterFiliere
  let matchNiveau := fs.filterNiveau == "" || insc.niveau == fs.filterNiveau
  matchNom && matchFiliere && matchNiveau

/-- `filteredInscriptions` (lines 184-200): the list filtered by
`matchesFilter`. -/
def filteredInscriptions (inscriptions : List Inscription)
    (fs : FilterState) : List Inscription :=
  inscriptions.filter (matchesFilter fs)

/-- The loading effect (lines 66-75): if the stored entry is absent the state
keeps its initial `[]`; if parsing throws, the error is caught and logged and
the state keeps its initial `[]`; otherwise the parsed list is installed.
`JSON.parse` is a platform primitive, abstracted as a fallible `parse`
parameter. -/
def loadInscriptions (stored : Option String)
    (parse : String → Option (List Inscription)) : List Inscription :=
  match stored with
  | none => []
  | some s =>
      match parse s with
      | none => []
      | some l => l

/-! ## Spec-side definitions used by refinement claims -/

/-- Spec-side filter predicate, written from the claim's words: the search
text matches on a CASE-INSENSITIVE substring test against the name OR against
the phone (or the search text is empty), ANDed with optional exact track and
level matches. This is compared against the code's `matchesFilter`. -/
def matchesFilterClaim (fs : FilterState) (insc : Inscription) : Bool :=
  (fs.searchNom == "" ||
    strIncludes (jsToLowerCase insc.nom) (jsToLowerCase fs.searchNom) ||
    strIncludes (jsToLowerCase insc.telephone) (jsToLowerCase fs.searchNom)) &&
  (fs.filterFiliere == "" || insc.filiere == fs.filterFiliere) &&
  (fs.filterNiveau == "" || insc.niveau == fs.filterNiveau)

/-- Amended spec-side search hit: case-insensitive substring match against the
name, or VERBATIM (case-sensitive) substring match against the phone. -/
def searchHit (searchText : String) (insc : Inscription) : Bool :=
  strIncludes (jsToLowerCase insc.nom) (jsToLowerCase searchText) ||
  strIncludes insc.telephone searchText

/-- Amended spec-side filter predicate: empty-search-or-`searchHit`, ANDed
with the optional exact track and level matches. -/
def matchesFilterAmended (fs : FilterState) (insc : Inscription) : Bool :=
  (fs.searchNom == "" || searchHit fs.searchNom insc) &&
  (fs.filterFiliere == "" || insc.filiere == fs.filterFiliere) &&
  (fs.filterNiveau == "" || insc.niveau == fs.filterNiveau)

/-- A concrete registration whose phone field holds an uppercase string, as
any list reloaded verbatim from storage may. -/
def c5Insc : Inscription :=
  { id := "i1", userId := "u1", nom := "x", filiere := "iw", niveau := "bts1",
    telephone := "AB", dateInscription := "d", heureInscription := "h" }

/-- A filter state searching for the lowercase text ab. -/
def c5Fs : FilterState := { searchNom := "ab", filterFiliere := "", filterNiveau := "" }

/-! ## Theorems -/

/-- C4: the phone validation predicate — the regex
`^(\+237|237)?[6][0-9]{8,9}$` applied after whitespace removal — accepts
"+237677123456" and "677123456" and rejects "123456789". -/
theorem c4_phone_regex_examples :
    phoneRegexTest (cleanPhone "+237677123456") = true ∧
    phoneRegexTest (cleanPhone "677123456") = true ∧
    phoneRegexTest (cleanPhone "123456789") = false := by
  refine ⟨rfl, rfl, rfl⟩

/-- C9: the filter is the identity when the search text, track filter and
level filter are all empty, and for every filter state the filtered view is a
sublist (order-preserving subsequence) of the full list. -/
theorem c9_filter_identity_and_sublist :
    (∀ l : List Inscription,
        filteredInscriptions l ⟨"", "", ""⟩ = l) ∧
    (∀ (l : List Inscription) (fs : FilterState),
        (filteredInscriptions l fs).Sublist l) := by
  constructor
  · intro l
    apply List.filter_eq_self.mpr
    intro a _
    rfl
  · intro l fs
    exact List.filter_sublist l

/-- C5 counterexample: the code's filter is NOT the case-insensitive
name-or-phone match the claim describes. On a list holding one registration
with phone "AB" and a search text "ab", the claim's case-insensitive predicate
keeps the entry but `filteredInscriptions` drops it (line 190 matches the
phone case-sensitively). -/
theorem c5_filter_case_sensitivity_counterexample :
    filteredInscriptions [c5Insc] c5Fs ≠
      List.filter (fun insc => matchesFilterClaim c5Fs insc) [c5Insc] := by
  have h1 : filteredInscriptions [c5Insc] c5Fs = [] := rfl
  have h2 : List.filter (fun insc => matchesFilterClaim c5Fs insc) [c5Insc]
      = [c5Insc] := rfl
  rw [h1, h2]
  simp

/-- C5 amended: the derived view equals the full list filtered by the
conjunction of (empty search text, or case-insensitive substring match against
the name, or VERBATIM substring match against the phone), optional exact track
match, and optional exact level match; and filtering by track "iw" alone
returns exactly the entries whose track is "iw". -/
theorem c5_filter_amended :
    (∀ (l : List Inscription) (fs : FilterState),
        filteredInscriptions l fs = l.filter (matchesFilterAmended fs)) ∧
    (∀ l : List Inscription,
        filteredInscriptions l ⟨"", "iw", ""⟩ =
          l.filter (fun insc => insc.filiere == "iw")) := by
  constructor
  · intro l fs
    apply List.filter_congr
    intro a _
    simp [matchesFilter, matchesFilterAmended, searchHit, Bool.or_assoc]
  · intro l
    apply List.filter_congr
    intro a _
    have h1 : (("iw" : String) == "") = false := rfl
    have h2 : ((("" : String)) == "") = true := rfl
    cases h : a.filiere == "iw" <;>
      simp [matchesFilter, h, h1, h2]

/-- C8: if the persisted entry is absent, or present but failing to parse,
the loading step leaves the in-memory list in its initial empty state. -/
theorem c8_load_fallback_empty :
    (∀ parse : String → Option (List Inscription),
        loadInscriptions none parse = []) ∧
    (∀ (parse : String → Option (List Inscription)) (s : String),
        parse s = none → loadInscriptions (some s) parse = []) := by
  refine ⟨fun parse => rfl, fun parse s h => ?_⟩
  simp [loadInscriptions, h]

/-- C8 witness: a concrete always-failing parse on a concrete stored string
leaves the list empty. -/
theorem c8_load_fallback_empty_witness :
    (fun _ : String => (none : Option (List Inscription))) "garbage" = none ∧
    loadInscriptions (some "garbage") (fun _ => none) = [] :=
  ⟨rfl, c8_load_fallback_empty.2 (fun _ => none) "garbage" rfl⟩

/-! ## Submission: capacity and duplicate invariants -/

/-- The full check sequence guarding a submission: `validateForm` (line 128),
then the capacity test of `handleSubmit` (lines 130-133). -/
def submitCheck (form : FormData) (l : List Inscription) : Option SubmitError :=
  match validateForm form l with
  | some e => some e
  | none =>
      if l.length ≥ MAX_INSCRIPTIONS then some .capacityFull else none

/-- Reachability of a registration list from another by any sequence of
submissions (with arbitrary form content and browser-supplied inputs) and
deletions. -/
inductive Reachable : List Inscription → List Inscription → Prop where
  | refl (l) : Reachable l l
  | submit {l l2 : List Inscription} (form : FormData) (cid nid d t : String) :
      Reachable l l2 →
      Reachable l
        (handleSubmit { inscriptions := l2, formData := form }
          cid nid d t).inscriptions
  | del {l l2 : List Inscription} (cid i : String) :
      Reachable l l2 → Reachable l (handleDelete l2 cid i)

/-- A form passing validation has no raw-phone duplicate in the list. -/
theorem validateForm_none_no_dup {form : FormData} {l : List Inscription}
    (h : validateForm form l = none) :
    l.any (fun insc => insc.telephone == form.telephone) = false := by
  unfold validateForm at h
  split_ifs at h with h1 h2 h3 h4 h5
  exact Bool.not_eq_true _ ▸ h5

/-- A submission never grows the list beyond one entry, and only when below
the cap. -/
theorem handleSubmit_length_le {st : HomeState} {cid nid d t : String}
    (h : st.inscriptions.length ≤ MAX_INSCRIPTIONS) :
    (handleSubmit st cid nid d t).inscriptions.length ≤ MAX_INSCRIPTIONS := by
  unfold handleSubmit
  split_ifs with h1 h2
  · exact h
  · exact h
  · simp only [List.length_cons]
    exact Nat.lt_of_not_le h2

/-- A deletion never grows the list. -/
theorem handleDelete_length_le (l : List Inscription) (cid i : String) :
    (handleDelete l cid i).length ≤ l.length := by
  unfold handleDelete
  split
  · exact Nat.le_refl _
  · split_ifs
    · exact Nat.le_refl _
    · exact l.length_filter_le _

/-- C1: once the list holds `MAX_INSCRIPTIONS` (50) entries or more,
`handleSubmit` is the identity on the state; consequently every list reachable
by submissions and deletions from a list of length at most 50 has length at
most 50. -/
theorem c1_capacity :
    (∀ (st : HomeState) (cid nid d t : String),
        MAX_INSCRIPTIONS ≤ st.inscriptions.length →
        handleSubmit st cid nid d t = st) ∧
    (∀ l0 l : List Inscription,
        l0.length ≤ MAX_INSCRIPTIONS → Reachable l0 l →
        l.length ≤ MAX_INSCRIPTIONS) := by
  constructor
  · intro st cid nid d t h
    unfold handleSubmit
    split_ifs with h1
    · rfl
    · rfl
  · intro l0 l h0 hr
    induction hr with
    | refl => exact h0
    | submit form cid nid d t _ ih => exact handleSubmit_length_le ih
    | del cid i _ ih =>
        exact Nat.le_trans (handleDelete_length_le _ cid i) ih

/-- A concrete registration used to instantiate the generic theorems. -/
def sampleInsc : Inscription :=
  { id := "i0", userId := "u0", nom := "Jean Dupont", filiere := "iw",
    niveau := "bts1", telephone := "677123456", dateInscription := "d0",
    heureInscription := "t0" }

/-- C1 witness: a 50-entry list rejects a submission unchanged, and the empty
list is within the cap. -/
theorem c1_capacity_witness :
    MAX_INSCRIPTIONS ≤
      (HomeState.mk (List.replicate 50 sampleInsc) emptyForm).inscriptions.length ∧
    handleSubmit ⟨List.replicate 50 sampleInsc, emptyForm⟩ "u" "n" "d" "t" =
      ⟨List.replicate 50 sampleInsc, emptyForm⟩ ∧
    ([] : List Inscription).length ≤ MAX_INSCRIPTIONS :=
  ⟨by simp [MAX_INSCRIPTIONS],
   c1_capacity.1 ⟨List.replicate 50 sampleInsc, emptyForm⟩ "u" "n" "d" "t"
     (by simp [MAX_INSCRIPTIONS]),
   c1_capacity.2 [] [] (by decide) (Reachable.refl [])⟩

/-- C2: a submission whose raw phone is already present in the list is
rejected with the state unchanged, and a submission never breaks uniqueness of
the stored phone strings. -/
theorem c2_duplicate_phone :
    (∀ (l : List Inscription) (form : FormData) (cid nid d t : String),
        (∃ insc ∈ l, insc.telephone = form.telephone) →
        handleSubmit ⟨l, form⟩ cid nid d t = ⟨l, form⟩) ∧
    (∀ (st : HomeState) (cid nid d t : String),
        (st.inscriptions.map Inscription.telephone).Nodup →
        ((handleSubmit st cid nid d t).inscriptions.map
          Inscription.telephone).Nodup) := by
  constructor
  · intro l form cid nid d t hdup
    have hv : (validateForm form l).isSome = true := by
      cases hvf : validateForm form l with
      | some e => rfl
      | none =>
          have hfalse := validateForm_none_no_dup hvf
          have htrue : l.any (fun insc => insc.telephone == form.telephone)
              = true := by
            rcases hdup with ⟨insc, hmem, htel⟩
            exact List.any_eq_true.mpr ⟨insc, hmem, by simp [htel]⟩
          rw [htrue] at hfalse
          cases hfalse
    simp [handleSubmit, hv]
  · intro st cid nid d t hnd
    unfold handleSubmit
    split_ifs with hvf hlen
    · exact hnd
    · exact hnd
    · have hnone : validateForm st.formData st.inscriptions = none := by
        cases h : validateForm st.formData st.inscriptions with
        | none => rfl
        | some e => exact absurd (by simp [h]) hvf
      have hfalse := validateForm_none_no_dup hnone
      have hnotmem :
          st.formData.telephone ∉
            st.inscriptions.map Inscription.telephone := by
        intro hmem
        rcases List.mem_map.mp hmem with ⟨insc, hmemi, htel⟩
        have : st.inscriptions.any
            (fun insc => insc.telephone == st.formData.telephone) = true :=
          List.any_eq_true.mpr ⟨insc, hmemi, by simp [htel]⟩
        rw [this] at hfalse
        cases hfalse
      simpa [newInscription] using List.Nodup.cons hnotmem hnd

/-- C2 witness: a second submission of the raw phone 677123456 is rejected
unchanged, and a submission from the empty list keeps phones unique. -/
theorem c2_duplicate_phone_witness :
    (∃ insc ∈ [sampleInsc],
        insc.telephone = (FormData.mk "Paul" "cmn" "bts2" "677123456").telephone) ∧
    handleSubmit ⟨[sampleInsc], ⟨"Paul", "cmn", "bts2", "677123456"⟩⟩
        "u1" "n1" "d1" "t1" =
      ⟨[sampleInsc], ⟨"Paul", "cmn", "bts2", "677123456"⟩⟩ ∧
    (([] : List Inscription).map Inscription.telephone).Nodup ∧
    ((handleSubmit ⟨[], ⟨"Paul", "cmn", "bts2", "677123456"⟩⟩
        "u1" "n1" "d1" "t1").inscriptions.map Inscription.telephone).Nodup :=
  ⟨⟨sampleInsc, by simp, rfl⟩,
   c2_duplicate_phone.1 [sampleInsc] ⟨"Paul", "cmn", "bts2", "677123456"⟩
     "u1" "n1" "d1" "t1" ⟨sampleInsc, by simp, rfl⟩,
   by simp,
   c2_duplicate_phone.2 ⟨[], ⟨"Paul", "cmn", "bts2", "677123456"⟩⟩
     "u1" "n1" "d1" "t1" (by simp)⟩

/-! ## Deletion -/

/-- When the ids in the list are distinct, the entry found by id splits the
list, and filtering that id out removes exactly that entry. -/
theorem find_nodup_filter_split (i : String) :
    ∀ (l : List Inscription) (insc : Inscription),
      (l.map Inscription.id).Nodup →
      l.find? (fun x => x.id == i) = some insc →
      ∃ l1 l2, l = l1 ++ insc :: l2 ∧
        l.filter (fun x => x.id != i) = l1 ++ l2 := by
  intro l
  induction l with
  | nil => intro insc _ hf; simp at hf
  | cons a t ih =>
      intro insc hnd hf
      rw [List.map_cons] at hnd
      obtain ⟨hnotin, hndt⟩ := List.nodup_cons.mp hnd
      by_cases ha : a.id == i
      · simp only [List.find?, ha] at hf
        obtain rfl : a = insc := Option.some.inj hf
        refine ⟨[], t, by simp, ?_⟩
        have haid : a.id = i := by simpa using ha
        have hall : ∀ x ∈ t, (x.id != i) = true := by
          intro x hx
          have hne : x.id ≠ i := by
            intro hxi
            exact hnotin
              (by simpa [haid, hxi] using
                List.mem_map_of_mem Inscription.id hx)
          simpa using hne
        simp only [List.filter_cons]
        rw [if_neg (by simp [haid]), List.filter_eq_self.mpr hall]
        simp
      · have ha2 : (a.id == i) = false := by simpa using ha
        simp only [List.find?, ha2] at hf
        obtain ⟨l1, l2, heq, hfil⟩ := ih insc hndt hf
        refine ⟨a :: l1, l2, by simp [heq], ?_⟩
        simp only [List.filter_cons]
        rw [if_pos (by simpa using ha), hfil]
        simp

/-- C3: `handleDelete` leaves the list unchanged when no entry carries the
requested id, or when the found entry's owner differs from the current browser
identifier; when the owner matches (and ids are distinct, as generated),
exactly that entry is removed, all others kept in relative order. -/
theorem c3_delete_owner_only (l : List Inscription) (cid i : String) :
    (l.find? (fun insc => insc.id == i) = none →
        handleDelete l cid i = l) ∧
    (∀ insc, l.find? (fun insc2 => insc2.id == i) = some insc →
        insc.userId ≠ cid → handleDelete l cid i = l) ∧
    (∀ insc, (l.map Inscription.id).Nodup →
        l.find? (fun insc2 => insc2.id == i) = some insc →
        insc.userId = cid →
        ∃ l1 l2, l = l1 ++ insc :: l2 ∧ handleDelete l cid i = l1 ++ l2) := by
  refine ⟨fun hf => ?_, fun insc hf hne => ?_, fun insc hnd hf howner => ?_⟩
  · simp [handleDelete, hf]
  · simp [handleDelete, hf, hne]
  · obtain ⟨l1, l2, heq, hfil⟩ := find_nodup_filter_split i l insc hnd hf
    exact ⟨l1, l2, heq, by simp [handleDelete, hf, howner, hfil]⟩

/-- C3 witness: on a one-entry list, deleting an unknown id or with the wrong
user leaves the list unchanged; the owner's deletion removes the entry. -/
theorem c3_delete_owner_only_witness :
    ([sampleInsc].find? (fun insc => insc.id == "zz") = none ∧
      handleDelete [sampleInsc] "u0" "zz" = [sampleInsc]) ∧
    ([sampleInsc].find? (fun insc2 => insc2.id == "i0") = some sampleInsc ∧
      sampleInsc.userId ≠ "uX" ∧
      handleDelete [sampleInsc] "uX" "i0" = [sampleInsc]) ∧
    ∃ l1 l2, [sampleInsc] = l1 ++ sampleInsc :: l2 ∧
      handleDelete [sampleInsc] "u0" "i0" = l1 ++ l2 :=
  ⟨⟨by decide, (c3_delete_owner_only [sampleInsc] "u0" "zz").1 (by decide)⟩,
   ⟨by decide, by decide,
    (c3_delete_owner_only [sampleInsc] "uX" "i0").2.1 sampleInsc
      (by decide) (by decide)⟩,
   (c3_delete_owner_only [sampleInsc] "u0" "i0").2.2 sampleInsc
     (by simp) (by decide) rfl⟩

/-! ## Successful submission, check order, raw-phone storage -/

/-- C6: from a list below capacity and a form passing validation,
`handleSubmit` prepends exactly one new registration built from the form (the
previous entries unchanged, shifted by one position) and resets the four form
fields to empty strings. -/
theorem c6_submit_success (l : List Inscription) (form : FormData)
    (cid nid d t : String)
    (hv : validateForm form l = none)
    (hlen : l.length < MAX_INSCRIPTIONS) :
    handleSubmit ⟨l, form⟩ cid nid d t =
      ⟨newInscription form cid nid d t :: l, emptyForm⟩ := by
  simp [handleSubmit, hv, Nat.not_le.mpr hlen]

/-- C6 witness: a concrete valid submission from the empty list. -/
theorem c6_submit_success_witness :
    validateForm ⟨"Jean", "iw", "bts1", "677123456"⟩ [] = none ∧
    ([] : List Inscription).length < MAX_INSCRIPTIONS ∧
    handleSubmit ⟨[], ⟨"Jean", "iw", "bts1", "677123456"⟩⟩ "u1" "id1" "d1" "t1" =
      ⟨[newInscription ⟨"Jean", "iw", "bts1", "677123456"⟩ "u1" "id1" "d1" "t1"],
        emptyForm⟩ :=
  ⟨rfl, by decide,
   c6_submit_success [] ⟨"Jean", "iw", "bts1", "677123456"⟩
     "u1" "id1" "d1" "t1" rfl (by decide)⟩

/-- The guarding checks of a submission, in the order the code evaluates
them (lines 98, 102, 106, 113, 118, 130): each paired with the error it
raises when it fails. -/
def checksInOrder (form : FormData) (l : List Inscription) :
    List (Bool × SubmitError) :=
  [ (!(jsTrim form.nom == ""), .emptyNom),
    (!(form.filiere == ""), .emptyFiliere),
    (!(form.niveau == ""), .emptyNiveau),
    (phoneRegexTest (cleanPhone form.telephone), .badPhone),
    (!(l.any (fun insc => insc.telephone == form.telephone)), .duplicatePhone),
    (decide (l.length < MAX_INSCRIPTIONS), .capacityFull) ]

/-- Spec-side first-failure semantics: the error of the first check in the
ordered list that fails, or `none` when all pass. -/
def firstFailure (form : FormData) (l : List Inscription) :
    Option SubmitError :=
  ((checksInOrder form l).find? (fun c => !c.1)).map (fun c => c.2)

/-- C7: the submission guard equals the first-failing-check semantics over
the ordered check list (name, track, level, phone format, duplicate,
capacity), and `handleSubmit` changes the state exactly when the guard
passes — on any rejection both the list and the form are unchanged. -/
theorem c7_check_order :
    (∀ (form : FormData) (l : List Inscription),
        submitCheck form l = firstFailure form l) ∧
    (∀ (st : HomeState) (cid nid d t : String),
        handleSubmit st cid nid d t =
          if submitCheck st.formData st.inscriptions = none then
            ⟨newInscription st.formData cid nid d t :: st.inscriptions,
              emptyForm⟩
          else st) := by
  constructor
  · intro form l
    unfold submitCheck validateForm firstFailure checksInOrder
    cases hb1 : jsTrim form.nom == "" <;>
    cases hb2 : form.filiere == "" <;>
    cases hb3 : form.niveau == "" <;>
    cases hb4 : phoneRegexTest (cleanPhone form.telephone) <;>
    cases hb5 : l.any (fun insc => insc.telephone == form.telephone) <;>
    cases hb6 : decide (l.length < MAX_INSCRIPTIONS) <;>
    simp_all [List.find?, Nat.not_lt, Nat.not_le]
  · intro st cid nid d t
    unfold handleSubmit submitCheck
    cases hvf : validateForm st.formData st.inscriptions with
    | some e => simp [hvf]
    | none =>
        by_cases hlen : st.inscriptions.length ≥ MAX_INSCRIPTIONS <;>
          simp [hvf, hlen]

/-- Concrete first form of the C10 scenario: raw phone 677123456. -/
def c10Form1 : FormData := ⟨"Jean", "iw", "bts1", "677123456"⟩

/-- Concrete second form of the C10 scenario: raw phone 677 123 456, the same
digits with interior spaces. -/
def c10Form2 : FormData := ⟨"Paul", "cmn", "bts2", "677 123 456"⟩

/-- State after submitting the first C10 form from the empty list. -/
def c10St1 : HomeState := handleSubmit ⟨[], c10Form1⟩ "u1" "i1" "d1" "t1"

/-- State after then submitting the second C10 form. -/
def c10St2 : HomeState :=
  handleSubmit ⟨c10St1.inscriptions, c10Form2⟩ "u2" "i2" "d2" "t2"

/-- C10: a stored registration carries the raw form phone verbatim (the
head of the list after any successful submission is the form's fields
unstripped), and two submissions whose phones differ only in whitespace are
both accepted: after the two concrete submissions both raw strings are in the
list even though they clean to the same number. -/
theorem c10_raw_phone_stored :
    (∀ (l : List Inscription) (form : FormData) (cid nid d t : String),
        validateForm form l = none → l.length < MAX_INSCRIPTIONS →
        (handleSubmit ⟨l, form⟩ cid nid d t).inscriptions.head? =
          some (newInscription form cid nid d t)) ∧
    cleanPhone c10Form1.telephone = cleanPhone c10Form2.telephone ∧
    c10Form1.telephone ≠ c10Form2.telephone ∧
    c10St2.inscriptions.map Inscription.telephone =
      [c10Form2.telephone, c10Form1.telephone] := by
  refine ⟨?_, rfl, by decide, rfl⟩
  intro l form cid nid d t hv hlen
  simp [handleSubmit, hv, Nat.not_le.mpr hlen]

/-- C10 witness: the head of the list after a concrete valid submission is
the verbatim form content. -/
theorem c10_raw_phone_stored_witness :
    validateForm c10Form1 [] = none ∧
    ([] : List Inscription).length < MAX_INSCRIPTIONS ∧
    (handleSubmit ⟨[], c10Form1⟩ "u1" "i1" "d1" "t1").inscriptions.head? =
      some (newInscription c10Form1 "u1" "i1" "d1" "t1") :=
  ⟨rfl, by decide,
   c10_raw_phone_stored.1 [] c10Form1 "u1" "i1" "d1" "t1" rfl (by decide)⟩
